import Mathlib

/-!
Shallow embedding of the `lcp-llm-response` repository (Python):
`lambda_function.py`, `llm_interface.py`, `prompts.py`, `db.py`.

External collaborators (the Together AI completion endpoint, the DynamoDB
`Threads` table, the db-select Lambda) are modelled as explicit oracle
parameters: each Lean definition takes the value the collaborator would
return and records, in its result, the calls and writes that the Python
code would issue.  Control flow (early returns, `try`/`except`, Python
truthiness) is translated statement by statement from the source.
-/

namespace LcpLlm

/-- One email record, as consumed by `LLMResponder.format_conversation`
(`llm_interface.py:44-57`).  The Python code reads the fields with
`email.get(key, '')`, so each field is optional here and defaults to the
empty string at use sites. -/
structure Email where
  subject : Option String
  body : Option String
  email_type : Option String
deriving DecidableEq, Repr

/-- One chat message `{"role": ..., "content": ...}` sent to the LLM. -/
structure Message where
  role : String
  content : String
deriving DecidableEq, Repr

/-- Python `str.upper()` over the character list (ASCII case mapping). -/
def py_upper (s : String) : String := ⟨s.data.map Char.toUpper⟩

/-- Python `str.lower()` over the character list (ASCII case mapping). -/
def py_lower (s : String) : String := ⟨s.data.map Char.toLower⟩

/-- Python `str.strip()`: drop whitespace from both ends. -/
def py_strip (s : String) : String :=
  ⟨((s.data.dropWhile Char.isWhitespace).reverse.dropWhile
      Char.isWhitespace).reverse⟩

/-- The body text built for one email in `format_conversation`
(`llm_interface.py:51`): `f"Subject: {email.get('subject', '')}\n\nBody:
{email.get('body', '')}"`. -/
def emailContent (email : Email) : String :=
  "Subject: " ++ email.subject.getD "" ++ "\n\nBody: " ++ email.body.getD ""

/-- The role chosen for one email (`llm_interface.py:52`):
`"user" if email.get('type') == 'inbound-email' else "assistant"`. -/
def emailRole (email : Email) : String :=
  if email.email_type = some "inbound-email" then "user" else "assistant"

/-- The message appended for one email in the loop body of
`format_conversation` (`llm_interface.py:50-54`). -/
def emailMessage (email : Email) : Message :=
  { role := emailRole email, content := emailContent email }

/-- `LLMResponder.format_conversation` (`llm_interface.py:44-57`): start
from `[{"role": "system", "content": self.system_prompt}]` and append one
message per email of the chain, in order.  The Python `for` loop appending
to the list is a left fold. -/
def format_conversation (system_prompt : String) (email_chain : List Email) :
    List Message :=
  email_chain.foldl (fun messages email => messages ++ [emailMessage email])
    [{ role := "system", content := system_prompt }]

/-- One DynamoDB `update_item` on the `Threads` table, projected to the two
attributes this code ever sets together (`llm_interface.py:192-222`): a
field is `some v` when the update expression sets it to `v`. -/
structure ThreadWrite where
  flag_for_review : Option String
  busy : Option String
deriving DecidableEq, Repr

/-- The update issued by `update_thread_flag_for_review`
(`llm_interface.py:192-222`): flagging with `'true'` sets
`flag_for_review = 'true'` and `busy = 'false'` in one update expression;
any other flag value sets only `flag_for_review`. -/
def update_thread_flag_for_review_write (flag_value : String) : ThreadWrite :=
  if flag_value = "true" then
    { flag_for_review := some flag_value, busy := some "false" }
  else
    { flag_for_review := some flag_value, busy := none }

/-- What one run of `check_with_reviewer_llm` decides and does:
the returned boolean, the `Threads` updates it issued (in order), and how
many times it called the reviewer LLM (`LLMResponder.send`). -/
structure GateResult where
  flagged : Bool
  writes : List ThreadWrite
  llm_calls : Nat
deriving DecidableEq, Repr

/-- `check_with_reviewer_llm` (`llm_interface.py:268-318`).
`override_flag` is the value `get_thread_flag_review_override` returned
(`none` models the Python `None`: thread missing or read error);
`send_result` is the outcome of the one `reviewer.send` call the code can
make (`Except.error` models a raised exception); `write_ok` is the boolean
returned by `update_thread_flag_for_review`, which the source only logs
(`llm_interface.py:302-303,310-311,316-317`), so it cannot influence the
result. -/
def check_with_reviewer_llm (override_flag : Option String)
    (send_result : Except String String) (write_ok : Bool) : GateResult :=
  match override_flag with
  | none =>
    -- `if override_flag is None: ... return True` (llm_interface.py:281-283)
    { flagged := true, writes := [], llm_calls := 0 }
  | some ov =>
    if ov = "true" then
      -- `if override_flag == 'true': ... return False` (llm_interface.py:285-287)
      { flagged := false, writes := [], llm_calls := 0 }
    else
      match send_result with
      | Except.error _ =>
        -- `except Exception as e: ... return True` (llm_interface.py:313-318)
        { flagged := true, writes := [update_thread_flag_for_review_write "true"],
          llm_calls := 1 }
      | Except.ok response =>
        let decision := py_upper (py_strip response)
        if decision = "FLAG" then
          { flagged := true, writes := [update_thread_flag_for_review_write "true"],
            llm_calls := 1 }
        else if decision = "CONTINUE" then
          { flagged := false, writes := [], llm_calls := 1 }
        else
          { flagged := true, writes := [update_thread_flag_for_review_write "true"],
            llm_calls := 1 }

/-- Python truthiness of an optional string (`if conversation_id`,
`if self.account_id`): `None` and the empty string are falsy. -/
def pyTruthy : Option String → Bool
  | none => false
  | some s => s != ""

/-- The closed set of drafting scenarios accepted by
`select_scenario_with_llm` (`llm_interface.py:349`). -/
def valid_scenarios : List String :=
  ["summarizer", "intro_email", "continuation_email", "closing_referral"]

/-- `select_scenario_with_llm` (`llm_interface.py:320-359`).  `send_result`
is the outcome of the one `selector.send` call (`Except.error` models a
raised exception, caught by the `except` clause at line 356). -/
def select_scenario_with_llm (send_result : Except String String) : String :=
  match send_result with
  | Except.error _ => "continuation_email"
  | Except.ok response =>
    let raw_scenario := py_strip response
    let scenario := py_lower raw_scenario
    let scenario := if scenario = "intro" then "intro_email" else scenario
    if scenario ∈ valid_scenarios then scenario else "continuation_email"

/-- The names bound at module scope in `llm_interface.py`: its imports
(`json`, `urllib3`, `boto3`, `logging` at lines 1-4, `TAI_KEY` and
`AWS_REGION` from `config` at line 5, the four `typing` names at line 6,
`get_prompts` from `prompts` at line 7, `store_llm_invocation` from `db`
at line 8), the module-level assignments `logger`, `http`, `url`
(lines 11-17), and the module's own `class`/`def` statements.  The name
`PROMPTS` (defined in `prompts.py:333` but never imported here) is not
among them. -/
def llm_interface_globals : List String :=
  ["json", "urllib3", "boto3", "logging", "TAI_KEY", "AWS_REGION",
   "Optional", "Dict", "Any", "List", "get_prompts", "store_llm_invocation",
   "logger", "http", "url", "LLMResponder", "format_conversation_for_llm",
   "update_thread_busy_status", "update_thread_flag_for_review",
   "get_thread_flag_review_override", "update_thread_flag_review_override",
   "check_with_reviewer_llm", "select_scenario_with_llm",
   "generate_email_response"]

/-- Outcome of the HTTP round trip to the completion endpoint, as
`LLMResponder.send` would classify it (`llm_interface.py:88-130`):
the transport raised; the response status was not 200; the parsed JSON
lacked `"choices"`; or a well-formed completion with its token counts. -/
inductive ApiOutcome
  | transport_error (msg : String)
  | http_error (status : Nat) (body : String)
  | missing_choices
  | ok (content : String) (prompt_tokens completion_tokens : Nat)

/-- What one call of `LLMResponder.send` did: how many HTTP requests it
issued, how many invocation audit records it stored, and its outcome
(`Except.error` models the exception the method re-raises at
`llm_interface.py:133-135`). -/
structure SendTrace where
  http_requests : Nat
  audit_writes : Nat
  result : Except String String

/-- `LLMResponder.send` (`llm_interface.py:59-135`).  The `try` block's
first statement is `for name, config in PROMPTS.items():`
(`llm_interface.py:74`), so the global name `PROMPTS` must resolve before
the request at line 88 is built; when it is unbound the `NameError` is
caught by the `except` clause at line 133, logged, and re-raised.  When
the name resolves, the method issues one request and proceeds per the
`api` outcome; on success it stores one audit record iff `self.account_id`
is truthy (line 118) and returns the content with literal `\n` sequences
replaced (line 132). -/
def LLMResponder_send (account_id : Option String) (messages : List Message)
    (conversation_id : Option String) (api : ApiOutcome) : SendTrace :=
  if "PROMPTS" ∈ llm_interface_globals then
    match api with
    | ApiOutcome.transport_error msg =>
      { http_requests := 1, audit_writes := 0, result := Except.error msg }
    | ApiOutcome.http_error _ body =>
      { http_requests := 1, audit_writes := 0,
        result :=
          Except.error ("Failed to fetch response from Together AI API: " ++ body) }
    | ApiOutcome.missing_choices =>
      { http_requests := 1, audit_writes := 0,
        result := Except.error "Invalid response format from Together AI API" }
    | ApiOutcome.ok content _ _ =>
      { http_requests := 1,
        audit_writes := if pyTruthy account_id then 1 else 0,
        result := Except.ok (content.replace "\\n" "\n") }
  else
    { http_requests := 0, audit_writes := 0,
      result := Except.error "NameError: name PROMPTS is not defined" }

/-- The keys of the dictionary returned by `get_prompts`
(`prompts.py:195-330`), used by `LLMResponder.__init__` for its
`scenario not in prompts` check (`llm_interface.py:26`). -/
def prompt_scenarios : List String :=
  ["summarizer", "intro_email", "continuation_email", "closing_referral",
   "selector_llm", "reviewer_llm"]

/-- The scenario `LLMResponder.__init__` settles on
(`llm_interface.py:26-36`): an unknown scenario is replaced by
`continuation_email`; the result is stored as `self.scenario` and selects
the prompt configuration for the draft. -/
def LLMResponder_scenario (scenario : String) : String :=
  if scenario ∈ prompt_scenarios then scenario else "continuation_email"

/-- The external-world inputs one run of `generate_email_response` can
consume: the thread's `flag_review_override` read, the outcome of the one
possible reviewer `send`, the boolean returned by the gate's thread-state
write, and the outcomes of the one possible selector `send` and the one
possible drafting `send`. -/
structure PipelineEnv where
  override_flag : Option String
  reviewer_send : Except String String
  reviewer_write_ok : Bool
  selector_send : Except String String
  draft_send : Except String String

/-- How `generate_email_response` terminates: it re-raises an exception
(`llm_interface.py:399-401`), returns `None` because the reviewer flagged
the conversation (line 377), or returns the drafted text (line 398). -/
inductive PipeOutcome
  | raised (msg : String)
  | flagged
  | drafted (text : String)
deriving DecidableEq, Repr

/-- One run of `generate_email_response`: its outcome plus how many times
each of the three LLM roles was invoked, and the scenario the drafting
`LLMResponder` was actually initialized with (`none` when drafting was
never reached). -/
structure PipelineResult where
  outcome : PipeOutcome
  reviewer_calls : Nat
  selector_calls : Nat
  draft_calls : Nat
  effective_scenario : Option String
deriving DecidableEq, Repr

/-- Steps 2 and 3 of `generate_email_response` (`llm_interface.py:379-398`),
reached when the reviewer gate was skipped or returned false:
`if not emails: scenario = "intro_email"`, else run the selector when no
scenario was provided; then create the drafting `LLMResponder` (which
resolves the scenario) and send. -/
def generate_email_response_core (emails : List Email) (scenario : Option String)
    (env : PipelineEnv) (reviewer_calls : Nat) : PipelineResult :=
  let chosen :=
    if emails.isEmpty then ("intro_email", 0)
    else
      match scenario with
      | none => (select_scenario_with_llm env.selector_send, 1)
      | some s => (s, 0)
  let effective := LLMResponder_scenario chosen.1
  match env.draft_send with
  | Except.error e =>
    { outcome := PipeOutcome.raised e, reviewer_calls := reviewer_calls,
      selector_calls := chosen.2, draft_calls := 1,
      effective_scenario := some effective }
  | Except.ok text =>
    { outcome := PipeOutcome.drafted text, reviewer_calls := reviewer_calls,
      selector_calls := chosen.2, draft_calls := 1,
      effective_scenario := some effective }

/-- `generate_email_response` (`llm_interface.py:361-401`) with its
intended four parameters `(emails, uid, conversation_id, scenario)`.
Step 1 (lines 372-377): when `conversation_id` is truthy and no scenario
was forced, consult the reviewer gate; a flagged decision returns `None`
at once, before the selector or the drafting responder exist. -/
def generate_email_response (emails : List Email) (uid : Option String)
    (conversation_id : Option String) (scenario : Option String)
    (env : PipelineEnv) : PipelineResult :=
  if pyTruthy conversation_id && scenario.isNone then
    if (check_with_reviewer_llm env.override_flag env.reviewer_send
          env.reviewer_write_ok).flagged then
      { outcome := PipeOutcome.flagged,
        reviewer_calls := (check_with_reviewer_llm env.override_flag
          env.reviewer_send env.reviewer_write_ok).llm_calls,
        selector_calls := 0, draft_calls := 0, effective_scenario := none }
    else
      generate_email_response_core emails scenario env
        (check_with_reviewer_llm env.override_flag env.reviewer_send
          env.reviewer_write_ok).llm_calls
  else
    generate_email_response_core emails scenario env 0

/-- The dictionary `generate_response_for_conversation` returns
(`lambda_function.py:50-74`), with one `Option` layer per key that may be
absent: `response = some none` models the JSON `"response": null` of the
flagged outcome. -/
structure RunResult where
  status : String
  response : Option (Option String)
  conversation_id : Option String
  invocation_id : Option String
  llm_email_type : Option String
  error : Option String
  message : Option String
deriving DecidableEq, Repr

/-- The error dictionary built by the `except` clause of
`generate_response_for_conversation` (`lambda_function.py:68-74`). -/
def error_result (invocation_id : String) (e : String) : RunResult :=
  { status := "error", response := none, conversation_id := none,
    invocation_id := some invocation_id, llm_email_type := none,
    error := some e, message := none }

/-- The `llm_email_type` mapping at `lambda_function.py:59`:
`scenario if scenario in ['intro_email', 'continuation_email',
'closing_referral', 'summarizer'] else 'continuation_email'`, applied to
the caller's `scenario` argument (Python `None` is not in the list). -/
def map_llm_email_type (scenario : Option String) : String :=
  match scenario with
  | some s =>
    if s ∈ ["intro_email", "continuation_email", "closing_referral", "summarizer"]
    then s else "continuation_email"
  | none => "continuation_email"

/-- How `generate_response_for_conversation` turns the outcome of its call
to `generate_email_response` into its result dictionary
(`lambda_function.py:45-74`): a raised exception reaches the `except`
clause; a `None` response becomes the `flagged_for_review` dictionary
(lines 49-56); a drafted text becomes the `success` dictionary
(lines 58-67). -/
def map_generate_outcome (conversation_id invocation_id : String)
    (scenario : Option String) : PipeOutcome → RunResult
  | PipeOutcome.raised e => error_result invocation_id e
  | PipeOutcome.flagged =>
    { status := "flagged_for_review", response := some none,
      conversation_id := some conversation_id,
      invocation_id := some invocation_id, llm_email_type := none,
      error := none,
      message := some "Conversation flagged for human review - no email will be sent" }
  | PipeOutcome.drafted text =>
    { status := "success", response := some (some text),
      conversation_id := some conversation_id,
      invocation_id := some invocation_id,
      llm_email_type := some (map_llm_email_type scenario), error := none,
      message := none }

/-- The parameter list of `generate_email_response` as defined at
`llm_interface.py:361`: `(emails, uid, conversation_id=None,
scenario=None)`.  `true` marks a parameter that has a default value. -/
def generate_email_response_params : List (String × Bool) :=
  [("emails", false), ("uid", false), ("conversation_id", true),
   ("scenario", true)]

/-- Python positional-argument binding: a call with `n` positional
arguments binds iff `n` is at least the number of parameters without
defaults and at most the total number of parameters; otherwise the call
raises `TypeError` before the callee's body runs. -/
def positional_call_binds (params : List (String × Bool)) (n : Nat) : Bool :=
  decide ((params.filter (fun p => !p.2)).length ≤ n) && decide (n ≤ params.length)

/-- The number of positional arguments at the call site
`lambda_function.py:45`: `generate_email_response(chain, account_id,
conversation_id, scenario, invocation_id)`. -/
def call_site_positional_args : Nat := 5

/-- `generate_response_for_conversation` (`lambda_function.py:15-74`).
`chain` is what `get_email_chain` returned (it returns a list, `[]` on
failure — `db.py:75-97`); an empty chain raises `ValueError`, caught by
the function's own `except` clause.  The call at line 45 passes
`call_site_positional_args` positional arguments; when that does not bind
against `generate_email_response_params`, Python raises `TypeError` at the
call site and the `except` clause produces the error dictionary. -/
def generate_response_for_conversation (conversation_id account_id invocation_id : String)
    (is_first_email : Bool) (scenario : Option String) (chain : List Email)
    (env : PipelineEnv) : RunResult :=
  if chain.isEmpty then
    error_result invocation_id "Could not get email chain"
  else
    let chain := if is_first_email then chain.take 1 else chain
    if positional_call_binds generate_email_response_params call_site_positional_args then
      map_generate_outcome conversation_id invocation_id scenario
        (generate_email_response chain (some account_id) (some conversation_id)
          scenario env).outcome
    else
      error_result invocation_id
        "TypeError: generate_email_response() takes from 2 to 4 positional arguments but 5 were given"

/-- The location/bio record `get_user_location_data` returns for an
account (`prompts.py:107-128`); Lean's `none` models the empty dictionary
returned when there is no account or no user record. -/
structure LocationData where
  location : String
  state : String
  country : String
  zipcode : String
  bio : String
deriving DecidableEq, Repr

/-- `construct_realtor_bio` (`prompts.py:130-162`), translated clause by
clause; Python truthiness of each `location_data.get(...)` value is
non-emptiness of the string. -/
def construct_realtor_bio : Option LocationData → String
  | none => ""
  | some d =>
    let location_info :=
      (if d.location ≠ "" then [d.location] else []) ++
      (if d.state ≠ "" then [d.state] else []) ++
      (if d.country ≠ "" ∧ py_lower d.country ≠ "united states" then [d.country]
       else [])
    let location_context :=
      if location_info ≠ [] then
        let location_str := String.intercalate ", " location_info
        let location_str :=
          if d.zipcode ≠ "" then location_str ++ " (" ++ d.zipcode ++ ")"
          else location_str
        "You specialize in the " ++ location_str ++ " market. "
      else ""
    if d.bio ≠ "" then
      if location_context ≠ "" then
        "The realtor you are emulating wrote this bio: \"" ++ d.bio ++ "\" " ++
          location_context ++
          "Use this information to inform your responses and maintain consistency with their professional identity. "
      else
        "The realtor you are emulating wrote this bio: \"" ++ d.bio ++
          "\" Use this information to inform your responses and maintain consistency with their professional identity. "
    else if location_context ≠ "" then
      "You are a local real estate expert. " ++ location_context ++
        "Use your market expertise to inform your responses. "
    else ""

/-- The generation hyperparameters of one prompt catalog entry
(`prompts.py`, the `"hyperparameters"` dictionaries). -/
structure Hyperparameters where
  max_tokens : Nat
  temperature : ℚ
  top_p : ℚ
  top_k : Nat
  repetition_penalty : ℚ
deriving DecidableEq, Repr

/-- One prompt catalog entry: `{"system": ..., "hyperparameters": ...}`. -/
structure PromptEntry where
  system : String
  hyperparameters : Hyperparameters
deriving DecidableEq, Repr

/-- The dictionary `get_prompts` returns (`prompts.py:195-330`), one field
per key. -/
structure Prompts where
  summarizer : PromptEntry
  intro_email : PromptEntry
  continuation_email : PromptEntry
  closing_referral : PromptEntry
  selector_llm : PromptEntry
  reviewer_llm : PromptEntry
deriving DecidableEq, Repr

/-- The guard at `prompts.py:178`:
`if account_id and account_id not in ['selector_llm', 'reviewer_llm']`. -/
def personalization_active : Option String → Bool
  | none => false
  | some a => a != "" && a != "selector_llm" && a != "reviewer_llm"

/-- `get_prompts` (`prompts.py:166-330`).  `user_tone`, `user_style`,
`user_sample` are the values `get_user_tone` / `get_user_style` /
`get_user_sample_prompt` would return for the account (each is the string
`"NULL"` when unset or on lookup failure, `prompts.py:56-105`), and
`location_data` is the `get_user_location_data` result; the source only
performs those lookups when `personalization_active`, and otherwise leaves
all four interpolated fragments empty (`prompts.py:172-193`). -/
def get_prompts (account_id : Option String)
    (user_tone user_style user_sample : String)
    (location_data : Option LocationData) : Prompts :=
  let active := personalization_active account_id
  let tone :=
    if active && user_tone != "NULL" then " in a " ++ user_tone ++ " tone" else ""
  let style :=
    if active && user_style != "NULL" then
      " using a " ++ user_style ++ " writing style"
    else ""
  let sample_instruction :=
    if active && user_sample != "NULL" then
      " that closely matches the style and tone of this writing sample: " ++ user_sample
    else ""
  let realtor_bio := if active then construct_realtor_bio location_data else ""
  { summarizer :=
      { system :=
          "You are an expert summarizer for real estate email threads. " ++
          realtor_bio ++ "Write your summary" ++ tone ++ style ++
          sample_instruction ++
          ".\n\nFocus only on extracting true key points, client intent, and concrete action items. Do NOT add, infer, or invent any details. If the input is empty, nonsensical, or unrelated to real estate, respond exactly with:\n\nNo content to summarize.\n\nIf the thread is long, condense into the most critical 2–3 sentences. Output only the summary—no headers, no extra commentary.",
        hyperparameters :=
          { max_tokens := 256, temperature := 0.3, top_p := 1.0, top_k := 0,
            repetition_penalty := 1.1 } },
    intro_email :=
      { system :=
          "You are a realtor responding to a potential client. " ++ realtor_bio ++
          "Write a brief, professional realtor introductory email" ++ tone ++
          style ++ sample_instruction ++
          ".\n\nKeep it simple: greeting, brief enthusiasm, ask 1-2 basic questions about their needs, and close naturally.\n\nDo NOT invent specific market data, property details, or services not mentioned.\nDo NOT include email signatures, formal closings, or sign-offs like \"Best regards,\" \"Sincerely,\" or \"[Your Name]\".\n\nExample:\nHello John, I'm excited to help you with your home search! What type of property are you looking for, and do you have a preferred area in mind? Have you started the pre-approval process yet? I'd be happy to help guide you through the next steps.",
        hyperparameters :=
          { max_tokens := 100, temperature := 0.3, top_p := 0.8, top_k := 50,
            repetition_penalty := 1.0 } },
    continuation_email :=
      { system :=
          "You are a realtor continuing an email conversation. " ++ realtor_bio ++
          "Respond" ++ tone ++ style ++ sample_instruction ++
          ".\n\nRespond naturally to their message, ask 1-2 relevant follow-up questions to understand their needs better, and suggest a helpful next step.\n\nDo NOT invent specific properties, market data, or services not mentioned. Keep responses conversational and focused on learning more about their situation.\nDo NOT include email signatures, formal closings, or sign-offs like \"Best regards,\" \"Sincerely,\" or \"[Your Name]\".\n\nExample:\nThanks for sharing those details! It sounds like you're looking for something specific. What's most important to you in terms of location - are you focused on a particular school district or commute? Have you had a chance to get pre-approved so we know what price range to focus on?",
        hyperparameters :=
          { max_tokens := 150, temperature := 0.3, top_p := 0.8, top_k := 50,
            repetition_penalty := 1.0 } },
    closing_referral :=
      { system :=
          "You are wrapping up a conversation as the realtor, either because the client is ready for direct contact or needs to be referred elsewhere. " ++
          realtor_bio ++ "Write your response" ++ tone ++ style ++
          sample_instruction ++
          ".\n\nCRITICAL REQUIREMENTS:\n– Output ONLY the email body content\n– Maintain your realtor persona and expertise\n– Summarize concrete next steps clearly\n– Do NOT invent details not previously discussed\n– Do NOT include email signatures, formal closings, or sign-offs like \"Best regards,\" \"Sincerely,\" or \"[Your Name]\"\n\nCLOSING SCENARIOS:\nIf the lead is QUALIFIED and ready for human interaction:\n– Recap their key requirements and timeline\n– Confirm next steps (showings, pre-approval, market analysis, etc.)\n– Provide clear direction on how to proceed\n– Maintain urgency without being pushy\n\nIf making a REFERRAL:\n– Explain why you're referring them (location, specialty, etc.)\n– Provide factual referral information only if already established\n– Offer to facilitate the introduction if appropriate\n\nFINAL VALUE ADD:\n– Include relevant market insight or timing considerations\n– Reinforce your commitment to their success\n– Leave the door open for future opportunities if appropriate",
        hyperparameters :=
          { max_tokens := 200, temperature := 0.3, top_p := 0.8, top_k := 40,
            repetition_penalty := 1.0 } },
    selector_llm :=
      { system :=
          "You are a classifier for real estate email automation. Choose exactly one action: summarizer, intro_email, continuation_email, or closing_referral. Output only that keyword.\n\nRules:\n– intro_email: First contact from a new lead\n– continuation_email: Ongoing conversation that needs more qualification/development\n– closing_referral: Lead is ready for human contact OR needs referral\n– summarizer: Thread is too long and needs condensing before processing\n\nPrioritize continuation_email to maximize information gathering before flagging for human intervention.",
        hyperparameters :=
          { max_tokens := 2, temperature := 0.0, top_p := 1.0, top_k := 1,
            repetition_penalty := 1.0 } },
    reviewer_llm :=
      { system :=
          "You are a business intelligence reviewer determining when a real estate conversation requires the realtor's personal attention. Output exactly one keyword: FLAG or CONTINUE.\n\nFLAG only when the conversation contains issues that require the realtor's direct expertise or intervention:\n\nBUSINESS LOGIC FLAGS:\n1. Pricing discussions, negotiations, or offer-related conversations\n2. Complex market analysis requests or competitive property comparisons  \n3. Scheduling conflicts, urgent timing issues, or time-sensitive opportunities\n4. Client expressing dissatisfaction, confusion, or service concerns\n5. Legal/contractual questions beyond basic information (HOA bylaws, deed restrictions, etc.)\n6. Financing complications or unique lending situations\n7. Referral requests or partnership/vendor discussions\n8. The AI appears to have given potentially incorrect market information\n9. Conversation is going in circles or AI seems unable to progress the lead\n10. Client requesting direct contact or phone calls\n11. Complex property conditions, inspections, or repair negotiations\n12. Investment property analysis or rental/commercial discussions\n\nCONTINUE for typical conversations like:\n- Initial inquiries about buying/selling homes\n- Basic qualification questions (budget, timeline, preferences)\n- General market information and property type discussions\n- Standard showing requests and availability coordination\n- Routine follow-up communications\n- Educational content about the buying/selling process\n\nRemember: The goal is identifying when the REALTOR'S specific expertise is needed, not content safety.",
        hyperparameters :=
          { max_tokens := 1, temperature := 0.0, top_p := 1.0, top_k := 1,
            repetition_penalty := 1.0 } } }

/-- `PROMPTS` (`prompts.py:333`): the catalog built once at import time with
no account, i.e. the un-personalized base instructions. -/
def PROMPTS : Prompts := get_prompts none "NULL" "NULL" "NULL" none

/-- Appending one element at a time inside a left fold is `List.map`:
the shape of the Python message-building loops. -/
theorem foldl_snoc_eq_map {α β : Type} (f : α → β) (l : List α) (acc : List β) :
    l.foldl (fun ms a => ms ++ [f a]) acc = acc ++ l.map f := by
  induction l generalizing acc with
  | nil => simp
  | cons x xs ih => simp [ih]

/-- C7: with `flag_review_override = "true"` the reviewer gate returns
false immediately and makes zero LLM completion calls. -/
theorem gate_override_skips_llm (send_result : Except String String)
    (write_ok : Bool) :
    (check_with_reviewer_llm (some "true") send_result write_ok).flagged = false ∧
    (check_with_reviewer_llm (some "true") send_result write_ok).llm_calls = 0 := by
  constructor <;> rfl

/-- C5 counterexample: when the thread review state is missing or
unreadable (`get_thread_flag_review_override` returned `None`), the gate
returns true yet performs no persistence write at all — refuting the
claim that every true decision is persisted. -/
theorem gate_missing_state_no_write :
    (check_with_reviewer_llm none (Except.ok "CONTINUE") true).flagged = true ∧
    (check_with_reviewer_llm none (Except.ok "CONTINUE") true).writes = [] := by
  constructor <;> rfl

/-- C5 (amended): whenever the gate decides to flag after actually
consulting the reviewer LLM (override readable and not `"true"`), it
issues exactly one write setting `flag_for_review = "true"` and
`busy = "false"` together; on the missing-state path it returns true with
no write; and the persistence outcome `write_ok` never changes the
returned boolean. -/
theorem gate_flag_persistence (ov : String) (send_result : Except String String)
    (write_ok write_ok' : Bool) (hov : ov ≠ "true")
    (hflag : (check_with_reviewer_llm (some ov) send_result write_ok).flagged = true) :
    (check_with_reviewer_llm (some ov) send_result write_ok).writes =
      [{ flag_for_review := some "true", busy := some "false" }] ∧
    (check_with_reviewer_llm none send_result write_ok).flagged = true ∧
    (check_with_reviewer_llm none send_result write_ok).writes = [] ∧
    (check_with_reviewer_llm (some ov) send_result write_ok).flagged =
      (check_with_reviewer_llm (some ov) send_result write_ok').flagged := by
  refine ⟨?_, rfl, rfl, rfl⟩
  simp only [check_with_reviewer_llm] at hflag ⊢
  rw [if_neg hov] at hflag ⊢
  cases send_result with
  | error e => simp [update_thread_flag_for_review_write]
  | ok response =>
    by_cases h1 : py_upper (py_strip response) = "FLAG"
    · simp [h1, update_thread_flag_for_review_write]
    · by_cases h2 : py_upper (py_strip response) = "CONTINUE"
      · simp [h1, h2] at hflag
      · simp [h1, h2, update_thread_flag_for_review_write]

/-- C5 witness: a FLAG-path run through the amended theorem. -/
theorem gate_flag_persistence_witness :
    ("false" : String) ≠ "true" ∧
    (check_with_reviewer_llm (some "false") (Except.error "boom") true).flagged = true ∧
    (check_with_reviewer_llm (some "false") (Except.error "boom") true).writes =
      [{ flag_for_review := some "true", busy := some "false" }] :=
  ⟨by decide, by decide,
   (gate_flag_persistence "false" (Except.error "boom") true false (by decide)
     (by decide)).1⟩

/-- C6: with the override readable and not `"true"`, any exception from
the LLM client makes the gate return true and issue the combined
`flag_for_review = "true"`, `busy = "false"` write; and any non-CONTINUE
trimmed-uppercased response also makes it return true. -/
theorem gate_exception_fail_safe (ov : String) (write_ok : Bool)
    (hov : ov ≠ "true") :
    (∀ e : String,
      (check_with_reviewer_llm (some ov) (Except.error e) write_ok).flagged = true ∧
      (check_with_reviewer_llm (some ov) (Except.error e) write_ok).writes =
        [{ flag_for_review := some "true", busy := some "false" }]) ∧
    (∀ s : String, py_upper (py_strip s) ≠ "CONTINUE" →
      (check_with_reviewer_llm (some ov) (Except.ok s) write_ok).flagged = true) := by
  constructor
  · intro e
    simp only [check_with_reviewer_llm]
    rw [if_neg hov]
    exact ⟨rfl, by simp [update_thread_flag_for_review_write]⟩
  · intro s hs
    simp only [check_with_reviewer_llm]
    rw [if_neg hov]
    by_cases h1 : py_upper (py_strip s) = "FLAG"
    · simp [h1]
    · simp [h1, hs]

/-- C6 witness: the exception path and an unknown-token path, concretely. -/
theorem gate_exception_fail_safe_witness :
    ("false" : String) ≠ "true" ∧
    (check_with_reviewer_llm (some "false") (Except.error "boom") true).writes =
      [{ flag_for_review := some "true", busy := some "false" }] ∧
    (check_with_reviewer_llm (some "false") (Except.ok "maybe") true).flagged = true :=
  ⟨by decide,
   ((gate_exception_fail_safe "false" true (by decide)).1 "boom").2,
   (gate_exception_fail_safe "false" true (by decide)).2 "maybe" (by decide)⟩

/-- C8: the scenario selector returns the trimmed, lowercased response
when it is in the closed valid set, canonicalizes `intro` to
`intro_email`, and defaults to `continuation_email` on every other
response and on any exception; its result always lies in the valid set,
so it never propagates a failure. -/
theorem selector_normalization (send_result : Except String String) :
    (∀ s, send_result = Except.ok s → py_lower (py_strip s) ∈ valid_scenarios →
      select_scenario_with_llm send_result = py_lower (py_strip s)) ∧
    (∀ s, send_result = Except.ok s → py_lower (py_strip s) = "intro" →
      select_scenario_with_llm send_result = "intro_email") ∧
    (∀ s, send_result = Except.ok s → py_lower (py_strip s) ∉ valid_scenarios →
      py_lower (py_strip s) ≠ "intro" →
      select_scenario_with_llm send_result = "continuation_email") ∧
    (∀ e, send_result = Except.error e →
      select_scenario_with_llm send_result = "continuation_email") ∧
    select_scenario_with_llm send_result ∈ valid_scenarios := by
  refine ⟨?_, ?_, ?_, ?_, ?_⟩
  · rintro s rfl hmem
    have hni : py_lower (py_strip s) ≠ "intro" := by
      intro h
      rw [h] at hmem
      simp [valid_scenarios] at hmem
    simp [select_scenario_with_llm, hni, hmem]
  · rintro s rfl hintro
    simp [select_scenario_with_llm, hintro, valid_scenarios]
  · rintro s rfl hmem hni
    simp [select_scenario_with_llm, hni, hmem]
  · rintro e rfl
    rfl
  · cases send_result with
    | error e => simp [select_scenario_with_llm, valid_scenarios]
    | ok s =>
      by_cases hintro : py_lower (py_strip s) = "intro"
      · simp [select_scenario_with_llm, hintro, valid_scenarios]
      · by_cases hmem : py_lower (py_strip s) ∈ valid_scenarios
        · have hres : select_scenario_with_llm (Except.ok s) = py_lower (py_strip s) := by
            simp [select_scenario_with_llm, hintro, hmem]
          rw [hres]
          exact hmem
        · have hres : select_scenario_with_llm (Except.ok s) = "continuation_email" := by
            simp [select_scenario_with_llm, hintro, hmem]
          rw [hres]
          simp [valid_scenarios]

/-- C8 witness: the two normalizations the spec calls out, concretely. -/
theorem selector_normalization_witness :
    select_scenario_with_llm (Except.ok " INTRO ") = "intro_email" ∧
    select_scenario_with_llm (Except.ok "banana") = "continuation_email" :=
  ⟨(selector_normalization (Except.ok " INTRO ")).2.1 " INTRO " rfl (by decide),
   (selector_normalization (Except.ok "banana")).2.2.1 "banana" rfl (by decide)
     (by decide)⟩

/-- C3: `LLMResponder.send` always fails before issuing any HTTP request:
the unbound global `PROMPTS` raises a `NameError` that the method logs and
re-raises, so no request is made, no audit record is written, and no text
is ever returned. -/
theorem send_always_name_error (account_id : Option String)
    (messages : List Message) (conversation_id : Option String)
    (api : ApiOutcome) :
    (LLMResponder_send account_id messages conversation_id api).http_requests = 0 ∧
    (LLMResponder_send account_id messages conversation_id api).audit_writes = 0 ∧
    (LLMResponder_send account_id messages conversation_id api).result =
      Except.error "NameError: name PROMPTS is not defined" := by
  unfold LLMResponder_send
  rw [if_neg (by decide : ¬ ("PROMPTS" ∈ llm_interface_globals))]
  exact ⟨rfl, rfl, rfl⟩

/-- C2: every run of `generate_response_for_conversation` returns the
error status: the five-positional-argument call at `lambda_function.py:45`
cannot bind `generate_email_response`'s four parameters, so the `except`
clause always produces the error dictionary (and `success` /
`flagged_for_review` are unreachable). -/
theorem generate_response_always_error (conversation_id account_id invocation_id : String)
    (is_first_email : Bool) (scenario : Option String) (chain : List Email)
    (env : PipelineEnv) :
    (generate_response_for_conversation conversation_id account_id invocation_id
      is_first_email scenario chain env).status = "error" := by
  unfold generate_response_for_conversation
  by_cases h : chain.isEmpty
  · simp [h, error_result]
  · have hb : positional_call_binds generate_email_response_params
        call_site_positional_args = false := by decide
    simp [h, hb, error_result]

/-- C9: the conversation formatter emits the system message first, then
exactly one message per email in chain order; an email maps to the
`user` role exactly when its type is `inbound-email` and to `assistant`
otherwise; its content is the Subject/Body template with absent fields
as empty strings; the empty chain yields the system message alone; and a
chain truncated to its first element (the `is_first_email` case) yields
exactly one non-system message. -/
theorem format_conversation_spec (system_prompt : String) (chain : List Email) :
    format_conversation system_prompt chain =
      { role := "system", content := system_prompt } :: chain.map emailMessage ∧
    (∀ email : Email,
      ((emailMessage email).role = "user" ↔
        email.email_type = some "inbound-email") ∧
      ((emailMessage email).role = "user" ∨
        (emailMessage email).role = "assistant") ∧
      (emailMessage email).content =
        "Subject: " ++ email.subject.getD "" ++ "\n\nBody: " ++
          email.body.getD "") ∧
    format_conversation system_prompt [] =
      [{ role := "system", content := system_prompt }] ∧
    (chain ≠ [] →
      ((format_conversation system_prompt (chain.take 1)).filter
        (fun m => m.role != "system")).length = 1) := by
  refine ⟨?_, ?_, rfl, ?_⟩
  · rw [format_conversation, foldl_snoc_eq_map]
    rfl
  · intro email
    refine ⟨?_, ?_, rfl⟩
    · unfold emailMessage emailRole
      by_cases h : email.email_type = some "inbound-email" <;> simp [h]
    · unfold emailMessage emailRole
      by_cases h : email.email_type = some "inbound-email" <;> simp [h]
  · intro hne
    cases chain with
    | nil => exact absurd rfl hne
    | cons x xs =>
      have hx : ((emailMessage x).role != "system") = true := by
        unfold emailMessage emailRole
        by_cases h : x.email_type = some "inbound-email" <;> simp [h]
      rw [show (x :: xs).take 1 = [x] from rfl, format_conversation,
        foldl_snoc_eq_map]
      simp [hx]

/-- C9 witness: a concrete one-inbound-email chain, evaluated. -/
theorem format_conversation_spec_witness :
    ([⟨some "a", some "b", some "inbound-email"⟩] : List Email) ≠ [] ∧
    format_conversation "S" [⟨some "a", some "b", some "inbound-email"⟩] =
      [{ role := "system", content := "S" },
       { role := "user", content := "Subject: a\n\nBody: b" }] ∧
    ((format_conversation "S"
        (([⟨some "a", some "b", some "inbound-email"⟩] : List Email).take 1)).filter
      (fun m => m.role != "system")).length = 1 := by
  refine ⟨by decide, ?_,
    (format_conversation_spec "S"
      [⟨some "a", some "b", some "inbound-email"⟩]).2.2.2 (by decide)⟩
  rw [(format_conversation_spec "S"
    [⟨some "a", some "b", some "inbound-email"⟩]).1]
  rfl

/-- C1: when the reviewer gate is consulted (truthy conversation id, no
forced scenario) and decides to flag, `generate_email_response` returns
`None` with zero selector calls and zero drafting calls, and the caller
maps that outcome to the `flagged_for_review` result with a null
response. -/
theorem flagged_review_terminates_run (emails : List Email) (uid : Option String)
    (conversation_id invocation_id : String) (env : PipelineEnv)
    (hconv : conversation_id ≠ "")
    (hflag : (check_with_reviewer_llm env.override_flag env.reviewer_send
      env.reviewer_write_ok).flagged = true) :
    (generate_email_response emails uid (some conversation_id) none env).outcome =
      PipeOutcome.flagged ∧
    (generate_email_response emails uid (some conversation_id) none env).selector_calls = 0 ∧
    (generate_email_response emails uid (some conversation_id) none env).draft_calls = 0 ∧
    (map_generate_outcome conversation_id invocation_id none
      (generate_email_response emails uid (some conversation_id) none env).outcome).status =
      "flagged_for_review" ∧
    (map_generate_outcome conversation_id invocation_id none
      (generate_email_response emails uid (some conversation_id) none env).outcome).response =
      some none := by
  have hc : (pyTruthy (some conversation_id) &&
      (none : Option String).isNone) = true := by
    simp [pyTruthy, hconv]
  have hg : generate_email_response emails uid (some conversation_id) none env =
      { outcome := PipeOutcome.flagged,
        reviewer_calls := (check_with_reviewer_llm env.override_flag
          env.reviewer_send env.reviewer_write_ok).llm_calls,
        selector_calls := 0, draft_calls := 0, effective_scenario := none } := by
    unfold generate_email_response
    rw [if_pos hc, if_pos hflag]
  rw [hg]
  exact ⟨rfl, rfl, rfl, rfl, rfl⟩

/-- C1 witness: an unreadable review state makes the gate flag; the run
terminates flagged. -/
theorem flagged_review_terminates_run_witness :
    ("c1" : String) ≠ "" ∧
    (check_with_reviewer_llm none (Except.ok "x") true).flagged = true ∧
    (generate_email_response [] none (some "c1") none
      ⟨none, Except.ok "x", true, Except.ok "y", Except.ok "z"⟩).outcome =
      PipeOutcome.flagged ∧
    (map_generate_outcome "c1" "i1" none
      (generate_email_response [] none (some "c1") none
        ⟨none, Except.ok "x", true, Except.ok "y", Except.ok "z"⟩).outcome).status =
      "flagged_for_review" :=
  ⟨by decide, by decide,
   (flagged_review_terminates_run [] none "c1" "i1"
     ⟨none, Except.ok "x", true, Except.ok "y", Except.ok "z"⟩
     (by decide) (by decide)).1,
   (flagged_review_terminates_run [] none "c1" "i1"
     ⟨none, Except.ok "x", true, Except.ok "y", Except.ok "z"⟩
     (by decide) (by decide)).2.2.2.1⟩

/-- C4 counterexample: a success run whose scenario was chosen by the
selector (here `summarizer`, with the gate skipped by the override): the
effective drafting scenario is `summarizer`, yet the result's
`llm_email_type` is `continuation_email`, because `lambda_function.py:59`
maps the caller's `scenario` argument (here `None`), not the selector's
choice. -/
theorem llm_email_type_selector_mismatch :
    (generate_email_response [⟨some "s", some "b", some "inbound-email"⟩] none
      (some "c1") none
      ⟨some "true", Except.ok "x", true, Except.ok "summarizer",
        Except.ok "hello"⟩).effective_scenario = some "summarizer" ∧
    (map_generate_outcome "c1" "i1" none
      (generate_email_response [⟨some "s", some "b", some "inbound-email"⟩] none
        (some "c1") none
        ⟨some "true", Except.ok "x", true, Except.ok "summarizer",
          Except.ok "hello"⟩).outcome).status = "success" ∧
    (map_generate_outcome "c1" "i1" none
      (generate_email_response [⟨some "s", some "b", some "inbound-email"⟩] none
        (some "c1") none
        ⟨some "true", Except.ok "x", true, Except.ok "summarizer",
          Except.ok "hello"⟩).outcome).llm_email_type ≠ some "summarizer" ∧
    (map_generate_outcome "c1" "i1" none
      (generate_email_response [⟨some "s", some "b", some "inbound-email"⟩] none
        (some "c1") none
        ⟨some "true", Except.ok "x", true, Except.ok "summarizer",
          Except.ok "hello"⟩).outcome).llm_email_type =
      some "continuation_email" := by
  refine ⟨?_, ?_, ?_, ?_⟩ <;> decide

/-- C4 (amended): in a success result, `llm_email_type` equals the forced
scenario when one was forced and lies in
{`intro_email`, `continuation_email`, `closing_referral`, `summarizer`}
(and, for a nonempty chain, then also equals the effective drafting
scenario); in every other success run — selector-chosen scenario, or
forced scenario outside that set — it is `continuation_email`, whatever
the effective scenario was. -/
theorem llm_email_type_characterization (emails : List Email) (uid : Option String)
    (conversation_id invocation_id : String) (scenario : Option String)
    (env : PipelineEnv) :
    (∀ s, scenario = some s →
      s ∈ ["intro_email", "continuation_email", "closing_referral", "summarizer"] →
      (map_generate_outcome conversation_id invocation_id scenario
        (generate_email_response emails uid (some conversation_id) scenario
          env).outcome).status = "success" →
      (map_generate_outcome conversation_id invocation_id scenario
        (generate_email_response emails uid (some conversation_id) scenario
          env).outcome).llm_email_type = some s ∧
      (emails ≠ [] →
        (generate_email_response emails uid (some conversation_id) scenario
          env).effective_scenario = some s)) ∧
    ((∀ s, scenario = some s →
        s ∉ ["intro_email", "continuation_email", "closing_referral", "summarizer"]) →
      (map_generate_outcome conversation_id invocation_id scenario
        (generate_email_response emails uid (some conversation_id) scenario
          env).outcome).status = "success" →
      (map_generate_outcome conversation_id invocation_id scenario
        (generate_email_response emails uid (some conversation_id) scenario
          env).outcome).llm_email_type = some "continuation_email") := by
  constructor
  · rintro s rfl hmem hsucc
    constructor
    · rcases houtcome : (generate_email_response emails uid (some conversation_id)
          (some s) env).outcome with e | _ | t
      · rw [houtcome] at hsucc
        simp [map_generate_outcome, error_result] at hsucc
      · rw [houtcome] at hsucc
        simp [map_generate_outcome] at hsucc
      · simp [map_generate_outcome, map_llm_email_type, hmem]
    · intro hne
      have hsome : LLMResponder_scenario s = s := by
        fin_cases hmem <;> rfl
      have hemp : emails.isEmpty = false := by
        cases emails with
        | nil => exact absurd rfl hne
        | cons a l => rfl
      cases hds : env.draft_send with
      | error e =>
        simp [generate_email_response, generate_email_response_core, hemp,
          hds, hsome]
      | ok t =>
        simp [generate_email_response, generate_email_response_core, hemp,
          hds, hsome]
  · intro hnot hsucc
    rcases houtcome : (generate_email_response emails uid (some conversation_id)
        scenario env).outcome with e | _ | t
    · rw [houtcome] at hsucc
      simp [map_generate_outcome, error_result] at hsucc
    · rw [houtcome] at hsucc
      simp [map_generate_outcome] at hsucc
    · cases scenario with
      | none => rfl
      | some s => simp [map_generate_outcome, map_llm_email_type, hnot s rfl]

/-- C4 witness: a forced `summarizer` run succeeds with
`llm_email_type = "summarizer"` and effective scenario `summarizer`. -/
theorem llm_email_type_characterization_witness :
    (("summarizer" : String) ∈
      ["intro_email", "continuation_email", "closing_referral", "summarizer"]) ∧
    (map_generate_outcome "c1" "i1" (some "summarizer")
      (generate_email_response [⟨some "s", some "b", none⟩] none (some "c1")
        (some "summarizer")
        ⟨some "false", Except.ok "x", true, Except.ok "y",
          Except.ok "draft text"⟩).outcome).status = "success" ∧
    (map_generate_outcome "c1" "i1" (some "summarizer")
      (generate_email_response [⟨some "s", some "b", none⟩] none (some "c1")
        (some "summarizer")
        ⟨some "false", Except.ok "x", true, Except.ok "y",
          Except.ok "draft text"⟩).outcome).llm_email_type = some "summarizer" ∧
    (generate_email_response [⟨some "s", some "b", none⟩] none (some "c1")
      (some "summarizer")
      ⟨some "false", Except.ok "x", true, Except.ok "y",
        Except.ok "draft text"⟩).effective_scenario = some "summarizer" := by
  refine ⟨by decide, by decide, ?_, ?_⟩
  · exact ((llm_email_type_characterization [⟨some "s", some "b", none⟩] none
      "c1" "i1" (some "summarizer")
      ⟨some "false", Except.ok "x", true, Except.ok "y",
        Except.ok "draft text"⟩).1 "summarizer" rfl (by decide) (by decide)).1
  · exact ((llm_email_type_characterization [⟨some "s", some "b", none⟩] none
      "c1" "i1" (some "summarizer")
      ⟨some "false", Except.ok "x", true, Except.ok "y",
        Except.ok "draft text"⟩).1 "summarizer" rfl (by decide) (by decide)).2
      (by decide)

/-- C10 counterexample: an account whose tone, style and sample
preferences are all the `NULL` sentinel but whose profile carries a bio
gets a summarizer instruction different from the un-personalized base
instruction `PROMPTS`. -/
theorem prompts_bio_personalization_counterexample :
    (get_prompts (some "acct-1") "NULL" "NULL" "NULL"
      (some ⟨"", "", "", "", "Top seller"⟩)).summarizer.system ≠
    PROMPTS.summarizer.system := by decide

/-- C10 (amended): when tone, style and sample are all the `NULL`
sentinel and the account's location/bio data is empty, the catalog equals
the un-personalized base `PROMPTS`; and for a personalized account each
drafting scenario's instruction is a fixed prefix and suffix around the
three preference clauses, appended additively in the stable order tone,
then style, then sample. -/
theorem prompts_null_prefs_base (account_id : Option String)
    (location_data : Option LocationData)
    (hbio : construct_realtor_bio location_data = "") :
    get_prompts account_id "NULL" "NULL" "NULL" location_data = PROMPTS ∧
    (∀ a ld, personalization_active (some a) = true →
      ∃ pre post : String, ∀ t s p,
        (get_prompts (some a) t s p ld).summarizer.system =
          pre ++ (if t != "NULL" then " in a " ++ t ++ " tone" else "") ++
            (if s != "NULL" then " using a " ++ s ++ " writing style" else "") ++
            (if p != "NULL" then
              " that closely matches the style and tone of this writing sample: " ++ p
             else "") ++ post) ∧
    (∀ a ld, personalization_active (some a) = true →
      ∃ pre post : String, ∀ t s p,
        (get_prompts (some a) t s p ld).intro_email.system =
          pre ++ (if t != "NULL" then " in a " ++ t ++ " tone" else "") ++
            (if s != "NULL" then " using a " ++ s ++ " writing style" else "") ++
            (if p != "NULL" then
              " that closely matches the style and tone of this writing sample: " ++ p
             else "") ++ post) ∧
    (∀ a ld, personalization_active (some a) = true →
      ∃ pre post : String, ∀ t s p,
        (get_prompts (some a) t s p ld).continuation_email.system =
          pre ++ (if t != "NULL" then " in a " ++ t ++ " tone" else "") ++
            (if s != "NULL" then " using a " ++ s ++ " writing style" else "") ++
            (if p != "NULL" then
              " that closely matches the style and tone of this writing sample: " ++ p
             else "") ++ post) ∧
    (∀ a ld, personalization_active (some a) = true →
      ∃ pre post : String, ∀ t s p,
        (get_prompts (some a) t s p ld).closing_referral.system =
          pre ++ (if t != "NULL" then " in a " ++ t ++ " tone" else "") ++
            (if s != "NULL" then " using a " ++ s ++ " writing style" else "") ++
            (if p != "NULL" then
              " that closely matches the style and tone of this writing sample: " ++ p
             else "") ++ post) := by
  refine ⟨?_, ?_, ?_, ?_, ?_⟩
  · simp [get_prompts, PROMPTS, personalization_active, hbio]
  · intro a ld ha
    exact ⟨"You are an expert summarizer for real estate email threads. " ++
      construct_realtor_bio ld ++ "Write your summary",
      ".\n\nFocus only on extracting true key points, client intent, and concrete action items. Do NOT add, infer, or invent any details. If the input is empty, nonsensical, or unrelated to real estate, respond exactly with:\n\nNo content to summarize.\n\nIf the thread is long, condense into the most critical 2–3 sentences. Output only the summary—no headers, no extra commentary.",
      fun t s p => by simp [get_prompts, ha, String.append_assoc]⟩
  · intro a ld ha
    exact ⟨"You are a realtor responding to a potential client. " ++
      construct_realtor_bio ld ++
      "Write a brief, professional realtor introductory email",
      ".\n\nKeep it simple: greeting, brief enthusiasm, ask 1-2 basic questions about their needs, and close naturally.\n\nDo NOT invent specific market data, property details, or services not mentioned.\nDo NOT include email signatures, formal closings, or sign-offs like \"Best regards,\" \"Sincerely,\" or \"[Your Name]\".\n\nExample:\nHello John, I'm excited to help you with your home search! What type of property are you looking for, and do you have a preferred area in mind? Have you started the pre-approval process yet? I'd be happy to help guide you through the next steps.",
      fun t s p => by simp [get_prompts, ha, String.append_assoc]⟩
  · intro a ld ha
    exact ⟨"You are a realtor continuing an email conversation. " ++
      construct_realtor_bio ld ++ "Respond",
      ".\n\nRespond naturally to their message, ask 1-2 relevant follow-up questions to understand their needs better, and suggest a helpful next step.\n\nDo NOT invent specific properties, market data, or services not mentioned. Keep responses conversational and focused on learning more about their situation.\nDo NOT include email signatures, formal closings, or sign-offs like \"Best regards,\" \"Sincerely,\" or \"[Your Name]\".\n\nExample:\nThanks for sharing those details! It sounds like you're looking for something specific. What's most important to you in terms of location - are you focused on a particular school district or commute? Have you had a chance to get pre-approved so we know what price range to focus on?",
      fun t s p => by simp [get_prompts, ha, String.append_assoc]⟩
  · intro a ld ha
    exact ⟨"You are wrapping up a conversation as the realtor, either because the client is ready for direct contact or needs to be referred elsewhere. " ++
      construct_realtor_bio ld ++ "Write your response",
      ".\n\nCRITICAL REQUIREMENTS:\n– Output ONLY the email body content\n– Maintain your realtor persona and expertise\n– Summarize concrete next steps clearly\n– Do NOT invent details not previously discussed\n– Do NOT include email signatures, formal closings, or sign-offs like \"Best regards,\" \"Sincerely,\" or \"[Your Name]\"\n\nCLOSING SCENARIOS:\nIf the lead is QUALIFIED and ready for human interaction:\n– Recap their key requirements and timeline\n– Confirm next steps (showings, pre-approval, market analysis, etc.)\n– Provide clear direction on how to proceed\n– Maintain urgency without being pushy\n\nIf making a REFERRAL:\n– Explain why you're referring them (location, specialty, etc.)\n– Provide factual referral information only if already established\n– Offer to facilitate the introduction if appropriate\n\nFINAL VALUE ADD:\n– Include relevant market insight or timing considerations\n– Reinforce your commitment to their success\n– Leave the door open for future opportunities if appropriate",
      fun t s p => by simp [get_prompts, ha, String.append_assoc]⟩

/-- C10 witness: the all-NULL, empty-location account reproduces the base
catalog exactly. -/
theorem prompts_null_prefs_base_witness :
    construct_realtor_bio none = "" ∧
    get_prompts (some "acct-1") "NULL" "NULL" "NULL" none = PROMPTS :=
  ⟨rfl, (prompts_null_prefs_base (some "acct-1") none rfl).1⟩

end LcpLlm
